import Mathlib

/-!
Verification development for the layout-aware scraper core
(`core/action_executor.py`, `core/llm_agent.py`, `main.py`).

The Python sources are shallowly embedded as executable Lean definitions:
pure helpers become Lean functions, the browser and the LLM become explicit
oracles, and every fallible step returns values rather than raising.
Floating-point confidences are modelled as rationals (every constant in the
source is an exact decimal, written here with `mkRat`); Python's unbounded
ints are `Int`/`Nat`.  String helpers (`lower`, `split`, `strip`, `replace`)
are re-implemented over `List Char` with the same semantics so that every
definition evaluates inside the kernel.
-/

set_option maxRecDepth 10000

namespace Scraper

/-- `ActionType` enum from `core/llm_agent.py` (CLICK, TYPE, SCROLL, WAIT,
NAVIGATE, EXTRACT, ERROR).  The TYPE member is rendered `type_`. -/
inductive ActionType where
  | click
  | type_
  | scroll
  | wait
  | navigate
  | extract
  | error
deriving DecidableEq, Repr

/-- The open `parameters` mapping of a `NavigationAction`.  The executor and
loop only ever read the keys modelled here (`params.get(key, default)` or
`key in params`); absent keys are `none`.  The Python key `type` (used by the
wait and extract handlers) is rendered `typeKey?`. -/
structure ActionParams where
  selector? : Option String := none
  text? : Option String := none
  url? : Option String := none
  direction? : Option String := none
  amount? : Option Int := none
  typeKey? : Option String := none
  duration? : Option Int := none
  timeout? : Option Int := none
  state? : Option String := none
  force? : Option Bool := none
  wait_after? : Option Int := none
  clear? : Option Bool := none
  delay? : Option Int := none
  press_enter? : Option Bool := none
deriving DecidableEq, Repr

/-- `NavigationAction` dataclass from `core/llm_agent.py`. -/
structure NavigationAction where
  action_type : ActionType
  target_description : String
  parameters : ActionParams
  confidence : ℚ
  reasoning : String
deriving DecidableEq, Repr

/-- `ActionExecutionResult` from `core/action_executor.py`.  The open `data`
dict is modelled as a key/value list (values rendered as strings). -/
structure ActionExecutionResult where
  success : Bool
  message : String
  data : List (String × String) := []
deriving DecidableEq, Repr

/-- `ActionExecutionResult.__bool__`: `return self.success`. -/
def ActionExecutionResult.toBool (r : ActionExecutionResult) : Bool :=
  r.success

/-- `SelectorStrategy` from `core/action_executor.py`. -/
structure SelectorStrategy where
  selector : String
  confidence : ℚ
  reasoning : String
  category : String
deriving DecidableEq, Repr

/-- The JSON object produced by `_parse_description_with_llm`, as consumed by
`_generate_selectors_from_components` (`components.get(key, default)`). -/
structure ParsedComponents where
  target_text : String := ""
  element_type : String := ""
  context_area : String := ""
  modifiers : List String := []
  alternative_text : List String := []
deriving DecidableEq, Repr

/-- Python `str.lower()` (ASCII case folding suffices for the source's
keys and keywords). -/
def py_lower (s : String) : String :=
  String.mk (s.toList.map Char.toLower)

/-- Python substring test `pat in s`. -/
def str_contains (s pat : String) : Bool :=
  decide (pat.toList <:+: s.toList)

/-- The character set of `word.strip('.,!?;:"()[]{}')` in
`_generate_fallback_selectors`. -/
def strip_set : List Char :=
  ['.', ',', '!', '?', ';', ':', '"', '(', ')', '[', ']', '\x7b', '\x7d']

/-- Python `str.strip(chars)`: drop members of `strip_set` from both ends. -/
def strip_punct (s : String) : String :=
  let l := s.toList.dropWhile (fun c => c ∈ strip_set)
  String.mk ((l.reverse.dropWhile (fun c => c ∈ strip_set)).reverse)

/-- Helper for `py_split_ws`: accumulate the current word (reversed). -/
def split_ws_aux : List Char → List Char → List String
  | [], acc => if acc = [] then [] else [String.mk acc.reverse]
  | c :: rest, acc =>
    if c.isWhitespace then
      (if acc = [] then [] else [String.mk acc.reverse]) ++ split_ws_aux rest []
    else split_ws_aux rest (c :: acc)

/-- Python `description.split()`: split on whitespace runs, dropping empties. -/
def py_split_ws (s : String) : List String :=
  split_ws_aux s.toList []

/-- The `potential_texts` accumulation in `_generate_fallback_selectors`:
capitalized tokens longer than 2 characters after punctuation stripping
(the literal list `['Discussion', 'Discussions']` is also accepted). -/
def potential_texts (description : String) : List String :=
  (py_split_ws description).filterMap (fun w =>
    let clean := strip_punct w
    if clean.length > 2 ∧
        (clean.front.isUpper ∨ clean = "Discussion" ∨ clean = "Discussions") then
      some clean
    else none)

/-- Selector text `base:has-text('t')` (`\x27` is the single-quote). -/
def has_text_sel (base t : String) : String :=
  base ++ ":has-text(\x27" ++ t ++ "\x27)"

/-- `_get_context_selectors`: fixed `context_map` lookup (lower-cased key,
default `["body"]`), then the `"main"` modifier prefixing. -/
def get_context_selectors (context_area : String) (modifiers : List String) :
    List String :=
  let m := py_lower context_area
  let sels :=
    if m = "navigation" then
      ["nav", "[role=\x27navigation\x27]", ".navigation", ".nav", "header nav"]
    else if m = "header" then
      ["header", ".header", "[role=\x27banner\x27]", "header nav", ".site-header"]
    else if m = "sidebar" then
      [".sidebar", ".side-nav", "[role=\x27complementary\x27]", "aside"]
    else if m = "main" then
      ["main", "[role=\x27main\x27]", ".main-content", ".content"]
    else if m = "footer" then
      ["footer", ".footer", "[role=\x27contentinfo\x27]", ".site-footer"]
    else if m = "form" then
      ["form", ".form", "[role=\x27form\x27]"]
    else if m = "menu" then
      [".menu", "[role=\x27menu\x27]", ".dropdown-menu", ".nav-menu"]
    else if m = "tab" then
      [".tabs", "[role=\x27tablist\x27]", ".tab-container"]
    else if m = "page" then
      ["body", "main", ".page"]
    else ["body"]
  if "main" ∈ modifiers ∧ context_area ≠ "main" then
    (sels.map (fun s => "main " ++ s)) ++ sels
  else sels

/-- `_get_element_type_selectors`: fixed `type_map` lookup (lower-cased key,
default `["*"]`). -/
def get_element_type_selectors (element_type : String) : List String :=
  let m := py_lower element_type
  if m = "button" then
    ["button", "[role=\x27button\x27]", "input[type=\x27button\x27]",
     "input[type=\x27submit\x27]"]
  else if m = "link" then
    ["a", "[role=\x27link\x27]"]
  else if m = "tab" then
    ["[role=\x27tab\x27]", ".tab", "a[role=\x27tab\x27]"]
  else if m = "input" then
    ["input", "textarea", "[contenteditable]"]
  else if m = "checkbox" then
    ["input[type=\x27checkbox\x27]", "[role=\x27checkbox\x27]"]
  else if m = "radio" then
    ["input[type=\x27radio\x27]", "[role=\x27radio\x27]"]
  else if m = "select" then
    ["select", "[role=\x27listbox\x27]"]
  else if m = "menu" then
    ["[role=\x27menuitem\x27]", ".menu-item"]
  else if m = "unknown" then
    ["*"]
  else ["*"]

/-- `_generate_selectors_from_components`: the six composition strategies, in
source order, at confidences 0.95 / 0.85 / 0.75 / 0.70 / 0.65 / 0.70. -/
def generate_selectors_from_components (c : ParsedComponents) :
    List SelectorStrategy :=
  if c.target_text = "" then [] else
  let context_selectors := get_context_selectors c.context_area c.modifiers
  let element_selectors := get_element_type_selectors c.element_type
  let s1 := (context_selectors.take 2).flatMap (fun ctx =>
    (element_selectors.take 2).map (fun el =>
      { selector := ctx ++ " " ++ has_text_sel el c.target_text
        confidence := mkRat 95 100
        reasoning := "Context-specific " ++ c.element_type ++ " with exact text"
        category := "semantic_precise" }))
  let s2 := element_selectors.map (fun el =>
    { selector := has_text_sel el c.target_text
      confidence := mkRat 85 100
      reasoning := "Element type with exact text"
      category := "semantic_element" })
  let s3 := context_selectors.map (fun ctx =>
    { selector := ctx ++ " " ++ has_text_sel "*" c.target_text
      confidence := mkRat 75 100
      reasoning := "Context area with any element containing text"
      category := "semantic_context" })
  let s4 := c.alternative_text.flatMap (fun alt =>
    (element_selectors.take 2).map (fun el =>
      { selector := has_text_sel el alt
        confidence := mkRat 70 100
        reasoning := "Alternative text variation: " ++ alt
        category := "semantic_alternative" }))
  let s5 :=
    if c.target_text.length > 3 then
      element_selectors.map (fun el =>
        { selector := has_text_sel el (c.target_text.take (c.target_text.length / 2))
          confidence := mkRat 65 100
          reasoning := "Partial text match"
          category := "semantic_partial" })
    else []
  let s6 :=
    if c.element_type = "link" then
      [{ selector := "a[href*=\x27" ++
            String.mk (((py_lower c.target_text).toList.filter
              (fun ch => ch ≠ ' ')).filter (fun ch => ch ≠ '-')) ++ "\x27]"
         confidence := mkRat 70 100
         reasoning := "Link href containing keyword"
         category := "semantic_attribute" }]
    else []
  s1 ++ s2 ++ s3 ++ s4 ++ s5 ++ s6

/-- `_generate_fallback_selectors`: keyword-triggered rule-based candidates at
confidence 0.60, plus the generic text fallback at 0.40. -/
def generate_fallback_selectors (description : String) :
    List SelectorStrategy :=
  let desc_lower := py_lower description
  let texts := potential_texts description
  let tabs :=
    if str_contains desc_lower "tab" || str_contains desc_lower "tabs" then
      texts.map (fun t =>
        { selector := has_text_sel "[role=\x27tab\x27]" t
          confidence := mkRat 60 100
          reasoning := "Tab role with text: " ++ t
          category := "fallback_tab" })
    else []
  let buttons :=
    if str_contains desc_lower "button" || str_contains desc_lower "btn" then
      texts.map (fun t =>
        { selector := has_text_sel "button" t
          confidence := mkRat 60 100
          reasoning := "Button with text: " ++ t
          category := "fallback_button" })
    else []
  let links :=
    if str_contains desc_lower "link" || str_contains desc_lower "href" then
      texts.map (fun t =>
        { selector := has_text_sel "a" t
          confidence := mkRat 60 100
          reasoning := "Link with text: " ++ t
          category := "fallback_link" })
    else []
  let generic := texts.map (fun t =>
    { selector := "*:has-text(\x27" ++ t ++ "\x27):not(body):not(html)"
      confidence := mkRat 40 100
      reasoning := "Any element with text: " ++ t
      category := "fallback_generic" })
  tabs ++ buttons ++ links ++ generic

/-- The explicit-selector candidate emitted when `'selector' in params`. -/
def explicit_strategy (sel : String) : SelectorStrategy :=
  { selector := sel
    confidence := 1
    reasoning := "Explicitly provided selector"
    category := "explicit" }

/-- `_generate_semantic_selectors`.  The LLM parse of the description is an
external call; its outcome is passed in as `parsed?` (`none` models the
branch where LLM parsing raised and only fallbacks are generated). -/
def generate_semantic_selectors (description : String) (params : ActionParams)
    (parsed? : Option ParsedComponents) : List SelectorStrategy :=
  (match params.selector? with
   | some sel => [explicit_strategy sel]
   | none => []) ++
  (match parsed? with
   | some c => generate_selectors_from_components c
   | none => []) ++
  generate_fallback_selectors description

/-! ### Ranking and execution (`EnhancedActionExecutor`) -/

/-- Decimal digits of a natural number (structural fuel recursion so the
kernel can evaluate it; `fuel ≥ n` always suffices). -/
def nat_digits : ℕ → ℕ → List Char
  | 0, _ => []
  | _ + 1, 0 => []
  | fuel + 1, n => nat_digits fuel (n / 10) ++ [Char.ofNat (48 + n % 10)]

/-- Kernel-evaluable rendering of a natural number, used where the source
interpolates an int into a message or a `data` value. -/
def nat_repr (n : ℕ) : String :=
  if n = 0 then "0" else String.mk (nat_digits (n + 1) n)

/-- Kernel-evaluable rendering of an integer. -/
def int_repr (i : ℤ) : String :=
  (if i < 0 then "-" else "") ++ nat_repr i.natAbs

/-- Kernel-evaluable rendering of a rational (model rendering of Python's
float formatting; the exact digits are not load-bearing anywhere). -/
def rat_repr (q : ℚ) : String :=
  int_repr q.num ++ "/" ++ nat_repr q.den

/-- Stable descending insertion used by `sort_desc`: `x` (earlier in
generation order) is placed before the first element whose confidence does
not exceed `x`'s. -/
def insert_desc (x : SelectorStrategy) : List SelectorStrategy → List SelectorStrategy
  | [] => [x]
  | y :: ys =>
    if x.confidence < y.confidence then y :: insert_desc x ys
    else x :: y :: ys

/-- Python `sorted(strategies, key=lambda x: x.confidence, reverse=True)`:
the stable sort by descending confidence (stable sorts are unique, so this
insertion sort computes exactly the CPython result). -/
def sort_desc : List SelectorStrategy → List SelectorStrategy
  | [] => []
  | x :: xs => insert_desc x (sort_desc xs)

/-- The sorted candidate list the click and type handlers iterate over. -/
def sorted_strategies (description : String) (params : ActionParams)
    (parsed? : Option ParsedComponents) : List SelectorStrategy :=
  sort_desc (generate_semantic_selectors description params parsed?)

/-- `timeout = max(2000, 8000 - (i * 1000))` for the zero-based attempt
index `i` in `_execute_enhanced_click`. -/
def clickTimeout (i : ℕ) : ℤ :=
  max 2000 (8000 - 1000 * (i : ℤ))

/-- One primitive interaction with the page handle, for the execution
trace.  A low-confidence rejection must produce an empty trace. -/
inductive BrowserOp where
  | waitForSelector (selector : String) (timeoutMs : ℤ)
  | isVisible (selector : String)
  | isEnabled (selector : String)
  | scrollIntoView (selector : String)
  | clickOn (selector : String)
  | sleep (ms : ℚ)
  | fill (selector text : String)
  | typeText (selector text : String)
  | press (selector key : String)
  | scrollBy (amount : ℤ)
  | scrollTo (position : String)
  | goto (url : String)
  | waitForLoadState (state : String)
  | textContent (selector : String)
  | pageContent
deriving DecidableEq, Repr

/-- Outcome of one candidate attempt inside `_execute_enhanced_click`:
`wait_for_selector` times out, returns null, or returns an element with
the given visibility/enabled state (`clickFails` models an exception from
the scroll/click step, swallowed by the per-attempt `except`). -/
inductive ClickAttemptOutcome where
  | timeoutErr
  | nullElement
  | element (visible enabled clickFails : Bool)
deriving DecidableEq, Repr

/-- Outcome of one candidate attempt inside `_execute_type`. -/
inductive TypeAttemptOutcome where
  | errStep
  | nullElement
  | ok
deriving DecidableEq, Repr

/-- Everything the executor's environment decides: the LLM parse of the
target description and the behaviour of each browser primitive. -/
structure ExecOracle where
  parsed? : Option ParsedComponents := none
  clickOutcome : ℕ → ClickAttemptOutcome := fun _ => ClickAttemptOutcome.timeoutErr
  typeOutcome : ℕ → TypeAttemptOutcome := fun _ => TypeAttemptOutcome.errStep
  scrollRaises : Bool := false
  waitTimesOut : Bool := false
  navigateRaises : Bool := false
  extractRaises : Bool := false
  elementFound : Bool := true
  bodyText : String := ""
  pageHtml : String := ""
  elementText : String := ""
  errMsg : String := ""

/-- The candidate loop of `_execute_enhanced_click`: try each strategy in
order with decreasing timeout; not-found / not-interactive / per-attempt
exceptions continue to the next candidate.  Returns the winning strategy
(if any), the list of strategies actually attempted, and the browser-op
trace. -/
def click_attempt_loop (oracle : ℕ → ClickAttemptOutcome) (wait_after : ℤ) :
    List SelectorStrategy → ℕ →
      Option SelectorStrategy × List SelectorStrategy × List BrowserOp
  | [], _ => (none, [], [])
  | s :: rest, i =>
    let wait_op := BrowserOp.waitForSelector s.selector (clickTimeout i)
    match oracle i with
    | ClickAttemptOutcome.timeoutErr =>
      let r := click_attempt_loop oracle wait_after rest (i + 1)
      (r.1, s :: r.2.1, wait_op :: r.2.2)
    | ClickAttemptOutcome.nullElement =>
      let r := click_attempt_loop oracle wait_after rest (i + 1)
      (r.1, s :: r.2.1, wait_op :: r.2.2)
    | ClickAttemptOutcome.element vis en clickFails =>
      let checks := [wait_op, BrowserOp.isVisible s.selector,
                     BrowserOp.isEnabled s.selector]
      if vis && en then
        if clickFails then
          let r := click_attempt_loop oracle wait_after rest (i + 1)
          (r.1, s :: r.2.1,
            checks ++ [BrowserOp.scrollIntoView s.selector,
                       BrowserOp.sleep (mkRat 1 2),
                       BrowserOp.clickOn s.selector] ++ r.2.2)
        else
          (some s, [s],
            checks ++ [BrowserOp.scrollIntoView s.selector,
                       BrowserOp.sleep (mkRat 1 2),
                       BrowserOp.clickOn s.selector,
                       BrowserOp.sleep (mkRat wait_after 1000)])
      else
        let r := click_attempt_loop oracle wait_after rest (i + 1)
        (r.1, s :: r.2.1, checks ++ r.2.2)

/-- `_execute_enhanced_click`. -/
def execute_enhanced_click (o : ExecOracle) (action : NavigationAction) :
    ActionExecutionResult × List BrowserOp :=
  let strategies := generate_semantic_selectors action.target_description
    action.parameters o.parsed?
  let sorted := sort_desc strategies
  let wait_after := action.parameters.wait_after?.getD 2000
  let r := click_attempt_loop o.clickOutcome wait_after sorted 0
  match r.1 with
  | some s =>
    ({ success := true
       message := "Click executed successfully using " ++ s.category ++ " strategy"
       data := [("selector", s.selector), ("strategy", s.category),
                ("confidence", rat_repr s.confidence)] }, r.2.2)
  | none =>
    ({ success := false
       message := "Could not find clickable element after trying " ++
         nat_repr strategies.length ++ " strategies"
       data := [("strategies_tried", nat_repr strategies.length)] }, r.2.2)

/-- The list of strategies the click handler actually attempts. -/
def click_attempted (o : ExecOracle) (action : NavigationAction) :
    List SelectorStrategy :=
  (click_attempt_loop o.clickOutcome (action.parameters.wait_after?.getD 2000)
    (sorted_strategies action.target_description action.parameters o.parsed?)
    0).2.1

/-- The browser-op trace of the click handler. -/
def click_trace (o : ExecOracle) (action : NavigationAction) :
    List BrowserOp :=
  (click_attempt_loop o.clickOutcome (action.parameters.wait_after?.getD 2000)
    (sorted_strategies action.target_description action.parameters o.parsed?)
    0).2.2

/-- The candidate loop of `_execute_type` (fixed 5000 timeout per attempt;
any per-attempt exception continues to the next candidate). -/
def type_attempt_loop (oracle : ℕ → TypeAttemptOutcome) (text : String)
    (params : ActionParams) :
    List SelectorStrategy → ℕ →
      Option SelectorStrategy × List SelectorStrategy × List BrowserOp
  | [], _ => (none, [], [])
  | s :: rest, i =>
    let wait_op := BrowserOp.waitForSelector s.selector 5000
    match oracle i with
    | TypeAttemptOutcome.errStep =>
      let r := type_attempt_loop oracle text params rest (i + 1)
      (r.1, s :: r.2.1, wait_op :: r.2.2)
    | TypeAttemptOutcome.nullElement =>
      let r := type_attempt_loop oracle text params rest (i + 1)
      (r.1, s :: r.2.1, wait_op :: r.2.2)
    | TypeAttemptOutcome.ok =>
      let clear_ops :=
        if params.clear?.getD true then [BrowserOp.fill s.selector ""] else []
      let enter_ops :=
        if params.press_enter?.getD false then [BrowserOp.press s.selector "Enter"]
        else []
      (some s, [s],
        wait_op :: clear_ops ++ [BrowserOp.typeText s.selector text] ++ enter_ops)

/-- `_execute_type`. -/
def execute_type (o : ExecOracle) (action : NavigationAction) :
    ActionExecutionResult × List BrowserOp :=
  let text := action.parameters.text?.getD ""
  if text = "" then
    ({ success := false, message := "No text specified for typing action" }, [])
  else
    let sorted := sorted_strategies action.target_description action.parameters
      o.parsed?
    let r := type_attempt_loop o.typeOutcome text action.parameters sorted 0
    match r.1 with
    | some s =>
      ({ success := true, message := "Text input successful"
         data := [("selector", s.selector), ("text", text)] }, r.2.2)
    | none =>
      ({ success := false
         message := "Could not find input element: " ++ action.target_description },
       r.2.2)

/-- The list of strategies the type handler actually attempts (empty text
short-circuits before any candidate generation). -/
def type_attempted (o : ExecOracle) (action : NavigationAction) :
    List SelectorStrategy :=
  if action.parameters.text?.getD "" = "" then []
  else
    (type_attempt_loop o.typeOutcome (action.parameters.text?.getD "")
      action.parameters
      (sorted_strategies action.target_description action.parameters o.parsed?)
      0).2.1

/-- `_execute_scroll`. -/
def execute_scroll (o : ExecOracle) (action : NavigationAction) :
    ActionExecutionResult × List BrowserOp :=
  let direction := action.parameters.direction?.getD "down"
  let amount := action.parameters.amount?.getD 500
  let wait_after := action.parameters.wait_after?.getD 1000
  let d := py_lower direction
  let ops? : Option (List BrowserOp) :=
    if d = "down" then some [BrowserOp.scrollBy amount]
    else if d = "up" then some [BrowserOp.scrollBy (-amount)]
    else if d = "to_bottom" then some [BrowserOp.scrollTo "bottom"]
    else if d = "to_top" then some [BrowserOp.scrollTo "top"]
    else none
  match ops? with
  | none =>
    ({ success := false, message := "Invalid scroll direction: " ++ direction }, [])
  | some ops =>
    if o.scrollRaises then
      ({ success := false, message := "Scroll failed: " ++ o.errMsg }, [])
    else
      ({ success := true, message := "Scroll executed successfully"
         data := [("direction", direction), ("amount", int_repr amount)] },
       ops ++ [BrowserOp.sleep (mkRat wait_after 1000)])

/-- `_execute_wait`. -/
def execute_wait (o : ExecOracle) (action : NavigationAction) :
    ActionExecutionResult × List BrowserOp :=
  let p := action.parameters
  let wait_type := p.typeKey?.getD "timeout"
  if wait_type = "timeout" then
    let duration := p.duration?.getD 2000
    ({ success := true, message := "Waited for " ++ int_repr duration ++ "ms" },
     [BrowserOp.sleep (mkRat duration 1000)])
  else if wait_type = "element" then
    let sel := p.selector?.getD ""
    let timeout := p.timeout?.getD 10000
    if o.waitTimesOut then
      ({ success := false, message := "Wait timeout: element" },
       [BrowserOp.waitForSelector sel timeout])
    else
      ({ success := true, message := "Element appeared: " ++ sel },
       [BrowserOp.waitForSelector sel timeout])
  else if wait_type = "load_state" then
    let state := p.state?.getD "networkidle"
    if o.waitTimesOut then
      ({ success := false, message := "Wait timeout: load_state" },
       [BrowserOp.waitForLoadState state])
    else
      ({ success := true, message := "Load state reached: " ++ state },
       [BrowserOp.waitForLoadState state])
  else
    ({ success := false, message := "Invalid wait type: " ++ wait_type }, [])

/-- `_execute_navigate`. -/
def execute_navigate (o : ExecOracle) (action : NavigationAction) :
    ActionExecutionResult × List BrowserOp :=
  let url := action.parameters.url?.getD ""
  if url = "" then
    ({ success := false, message := "No URL specified for navigation" }, [])
  else if o.navigateRaises then
    ({ success := false, message := "Navigation failed: " ++ o.errMsg },
     [BrowserOp.goto url])
  else
    ({ success := true, message := "Navigation successful", data := [("url", url)] },
     [BrowserOp.goto url, BrowserOp.waitForLoadState "networkidle"])

/-- `_execute_extract`. -/
def execute_extract (o : ExecOracle) (action : NavigationAction) :
    ActionExecutionResult × List BrowserOp :=
  let p := action.parameters
  let extraction_type := p.typeKey?.getD "text"
  if extraction_type = "text" then
    if o.extractRaises then
      ({ success := false, message := "Extraction failed: " ++ o.errMsg }, [])
    else
      ({ success := true, message := "Text extracted"
         data := [("content", o.bodyText)] }, [BrowserOp.textContent "body"])
  else if extraction_type = "html" then
    if o.extractRaises then
      ({ success := false, message := "Extraction failed: " ++ o.errMsg }, [])
    else
      ({ success := true, message := "HTML extracted"
         data := [("content", o.pageHtml)] }, [BrowserOp.pageContent])
  else if extraction_type = "element" then
    let sel := p.selector?.getD ""
    if sel ≠ "" then
      if o.extractRaises then
        ({ success := false, message := "Extraction failed: " ++ o.errMsg },
         [BrowserOp.waitForSelector sel 5000])
      else if o.elementFound then
        ({ success := true, message := "Element text extracted"
           data := [("content", o.elementText), ("selector", sel)] },
         [BrowserOp.waitForSelector sel 5000, BrowserOp.textContent sel])
      else
        ({ success := false
           message := "Invalid extraction type or missing selector: element" },
         [BrowserOp.waitForSelector sel 5000])
    else
      ({ success := false
         message := "Invalid extraction type or missing selector: element" }, [])
  else
    ({ success := false
       message := "Invalid extraction type or missing selector: " ++ extraction_type },
     [])

/-- `execute_action`: the confidence gate (`action.confidence < 0.3` rejects
before anything touches the page) followed by dispatch on the action type. -/
def execute_action (o : ExecOracle) (action : NavigationAction) :
    ActionExecutionResult × List BrowserOp :=
  if action.confidence < mkRat 3 10 then
    ({ success := false
       message := "Action confidence too low: " ++ rat_repr action.confidence }, [])
  else
    match action.action_type with
    | ActionType.click => execute_enhanced_click o action
    | ActionType.type_ => execute_type o action
    | ActionType.scroll => execute_scroll o action
    | ActionType.wait => execute_wait o action
    | ActionType.navigate => execute_navigate o action
    | ActionType.extract => execute_extract o action
    | ActionType.error =>
      ({ success := false, message := "Unsupported action type: error" }, [])

/-- The wait timeouts recorded in a browser-op trace, in order. -/
def wait_timeouts (trace : List BrowserOp) : List ℤ :=
  trace.filterMap (fun op =>
    match op with
    | BrowserOp.waitForSelector _ t => some t
    | _ => none)

/-! ### Session orchestration (`LayoutAwareScraper.scrape_page`, `main.py`) -/

/-- One entry of `results['actions_taken']`: `action.to_dict()` plus the
page title/URL context recorded before dispatch. -/
structure ActionRecord where
  action_type : String
  target_description : String
  parameters : ActionParams
  confidence : ℚ
  reasoning : String
  page_title : String
  page_url : String
deriving DecidableEq, Repr

/-- The string value of `ActionType.value` used in records. -/
def ActionType.value : ActionType → String
  | ActionType.click => "click"
  | ActionType.type_ => "type"
  | ActionType.scroll => "scroll"
  | ActionType.wait => "wait"
  | ActionType.navigate => "navigate"
  | ActionType.extract => "extract"
  | ActionType.error => "error"

/-- One entry of `results['errors']`.  The Python list is heterogeneous:
a bare reasoning string for an LLM-reported error, an execution record for
a failed action, and a session-failure dict for a caught exception. -/
inductive ErrorRecord where
  | llmError (reasoning : String)
  | executionFailure (action_type target_description message : String)
      (execution_data : List (String × String))
  | sessionFailure (error : String) (action_number : ℕ)
deriving DecidableEq, Repr

/-- One entry of `results['selector_strategies_used']`. -/
structure StrategyRecord where
  action : String
  strategy : String
  selector : String
  confidence : String
deriving DecidableEq, Repr

/-- The `session.results` dictionary.  The four summary keys are only set on
the normal exit path, hence `Option` (absent = key not in the dict). -/
structure SessionResults where
  actions_taken : List ActionRecord := []
  extracted_content : List (String × String) := []
  navigation_path : List String := []
  errors : List ErrorRecord := []
  selector_strategies_used : List StrategyRecord := []
  final_url? : Option String := none
  total_actions? : Option ℕ := none
  successful_navigation? : Option Bool := none
  strategies_learned? : Option ℕ := none
deriving DecidableEq, Repr

/-- The dictionary `__post_init__` creates when `results is None`. -/
def emptyResults : SessionResults := {}

/-- `ScrapingSession` dataclass from `main.py` (defaults as in the source;
`__post_init__` fills `results` with `emptyResults`). -/
structure ScrapingSession where
  url : String
  goal : String
  max_actions : ℕ := 10
  current_action : ℕ := 0
  results : SessionResults := emptyResults
deriving DecidableEq, Repr

/-- Python `dict.update`: keys of `upd` overwrite, the rest of `base` is
kept (last-writer-wins per key). -/
def dict_update (base upd : List (String × String)) :
    List (String × String) :=
  base.filter (fun kv => upd.all (fun kv2 => kv2.1 ≠ kv.1)) ++ upd

/-- What the environment does on one loop iteration: either some awaited
call in the turn body raises (page analysis, title fetch, …), or the turn
runs with the data below. -/
structure TurnData where
  /-- `page_state['title']` from `_analyze_current_page`. -/
  title : String
  /-- `page_state['url']`, the pre-action URL snapshot. -/
  url : String
  /-- The `NavigationAction` returned by the LLM agent (it never raises:
  failures surface as an ERROR action). -/
  action : NavigationAction
  /-- The value of `execute_action` (it never raises). -/
  execResult : ActionExecutionResult
  /-- What `_extract_content` returns if the action is EXTRACT (it catches
  its own exceptions, so it always returns a dict). -/
  extractContent : List (String × String)
  /-- `page.url` observed after a successful action settles. -/
  urlAfter : String

/-- Outcome of one turn of the loop. -/
inductive TurnOutcome where
  | raises (msg : String)
  | runs (d : TurnData)

/-- The environment of one full `scrape_page` run. -/
structure SessionOracle where
  /-- Exception while entering `browser_pool.get_page()` (semaphore,
  context creation, `new_page`, stealth configuration). -/
  acquireFails? : Option String := none
  /-- Exception from `page.goto(session.url)`. -/
  gotoFails? : Option String := none
  /-- Turn `n` (1-based, the incremented `current_action`). -/
  turns : ℕ → TurnOutcome := fun _ => TurnOutcome.raises ""
  /-- `page.url` at the end of the session. -/
  finalUrl : String := ""
  /-- What `_extract_final_content` returns (it catches internally). -/
  finalContent : List (String × String) := []
  /-- Exception from `page.close()` in the `finally` of `get_page`. -/
  releaseFails? : Option String := none

/-- The mutations of one interactive (non-extract, non-error) dispatch in the
loop body: on success, record the winning strategy when the result data
carries one and append the post-settle URL when it changed; on failure,
append the execution record to `errors`. -/
def turn_update (r : SessionResults) (d : TurnData) : SessionResults :=
  if d.execResult.success then
    let r :=
      if d.execResult.data ≠ [] ∧
          (d.execResult.data.lookup "strategy").isSome then
        { r with selector_strategies_used :=
            r.selector_strategies_used ++
            [{ action := d.action.target_description
               strategy := (d.execResult.data.lookup "strategy").getD ""
               selector := (d.execResult.data.lookup "selector").getD ""
               confidence :=
                 (d.execResult.data.lookup "confidence").getD "0.0" }] }
      else r
    if d.urlAfter ≠ d.url then
      { r with navigation_path := r.navigation_path ++ [d.urlAfter] }
    else r
  else
    { r with errors := r.errors ++
        [ErrorRecord.executionFailure d.action.action_type.value
          d.action.target_description d.execResult.message
          d.execResult.data] }

/-- The `while session.current_action < session.max_actions` loop.  `fuel`
is a structural-recursion bound; `scrape_page` passes
`max_actions - current_action`, which is exact since every iteration
increments the counter by one.  Returns `.inl (counter, results)` on normal
exit or break, `.inr (msg, counter, results)` when an iteration raises
(caught by the surrounding `except`). -/
def loop_turns (o : SessionOracle) (max_actions : ℕ) :
    ℕ → ℕ → SessionResults →
      (ℕ × SessionResults) ⊕ (String × ℕ × SessionResults)
  | 0, current, r => Sum.inl (current, r)
  | fuel + 1, current, r =>
    if current < max_actions then
      let cur := current + 1
      match o.turns cur with
      | TurnOutcome.raises msg => Sum.inr (msg, cur, r)
      | TurnOutcome.runs d =>
        let record : ActionRecord :=
          { action_type := d.action.action_type.value
            target_description := d.action.target_description
            parameters := d.action.parameters
            confidence := d.action.confidence
            reasoning := d.action.reasoning
            page_title := d.title
            page_url := d.url }
        let r := { r with actions_taken := r.actions_taken ++ [record] }
        if d.action.action_type = ActionType.extract then
          Sum.inl (cur,
            { r with extracted_content :=
                dict_update r.extracted_content d.extractContent })
        else if d.action.action_type = ActionType.error then
          Sum.inl (cur,
            { r with errors :=
                r.errors ++ [ErrorRecord.llmError d.action.reasoning] })
        else
          loop_turns o max_actions fuel cur (turn_update r d)
    else Sum.inl (current, r)

/-- The tail of the `try` block on the normal exit path: the
final-extraction pass when nothing was extracted, then the summary keys
(`final_url`, `total_actions`, `successful_navigation`,
`strategies_learned`). -/
def finalize (o : SessionOracle) (cur : ℕ) (r : SessionResults) :
    SessionResults :=
  let r2 :=
    if r.extracted_content = [] then
      { r with extracted_content :=
          dict_update r.extracted_content o.finalContent }
    else r
  { r2 with
    final_url? := some o.finalUrl
    total_actions? := some cur
    successful_navigation? := some (decide (r2.navigation_path.length > 1))
    strategies_learned? := some r2.selector_strategies_used.length }

/-- The results dictionary right after the successful `goto`: the start URL
is appended to `navigation_path`. -/
def start_results (s : ScrapingSession) : SessionResults :=
  { s.results with
    navigation_path := s.results.navigation_path ++ [s.url] }

/-- `scrape_page`.  The `try/except` sits inside
`async with browser_pool.get_page()`: body exceptions are converted into a
session-failure record with partial results, while faults during page
acquisition or release propagate to the caller (`Except.error`). -/
def scrape_page (o : SessionOracle) (s : ScrapingSession) :
    Except String SessionResults :=
  match o.acquireFails? with
  | some msg => Except.error msg
  | none =>
    let results :=
      match o.gotoFails? with
      | some msg =>
        { s.results with errors := s.results.errors ++
            [ErrorRecord.sessionFailure msg s.current_action] }
      | none =>
        match loop_turns o s.max_actions (s.max_actions - s.current_action)
            s.current_action (start_results s) with
        | Sum.inr (msg, cur, r) =>
          { r with errors := r.errors ++ [ErrorRecord.sessionFailure msg cur] }
        | Sum.inl (cur, r) => finalize o cur r
    match o.releaseFails? with
    | some msg => Except.error msg
    | none => Except.ok results

/-! ### Lemmas about the ranking -/

theorem mem_insert_desc {x y : SelectorStrategy} {l : List SelectorStrategy} :
    y ∈ insert_desc x l ↔ y = x ∨ y ∈ l := by
  induction l with
  | nil => simp [insert_desc]
  | cons z zs ih =>
    simp only [insert_desc]
    split
    · simp only [List.mem_cons, ih]
      tauto
    · simp only [List.mem_cons]

theorem mem_sort_desc {y : SelectorStrategy} {l : List SelectorStrategy} :
    y ∈ sort_desc l ↔ y ∈ l := by
  induction l with
  | nil => simp [sort_desc]
  | cons z zs ih =>
    simp only [sort_desc, mem_insert_desc, ih, List.mem_cons]

theorem pairwise_insert_desc {x : SelectorStrategy} {l : List SelectorStrategy}
    (hl : l.Pairwise (fun a b => b.confidence ≤ a.confidence)) :
    (insert_desc x l).Pairwise (fun a b => b.confidence ≤ a.confidence) := by
  induction l with
  | nil => simp [insert_desc]
  | cons z zs ih =>
    rcases List.pairwise_cons.mp hl with ⟨hz, hzs⟩
    simp only [insert_desc]
    split
    · rename_i hlt
      refine List.pairwise_cons.mpr ⟨?_, ih hzs⟩
      intro a ha
      rcases mem_insert_desc.mp ha with rfl | ha
      · exact le_of_lt hlt
      · exact hz a ha
    · rename_i hge
      refine List.pairwise_cons.mpr ⟨?_, hl⟩
      intro a ha
      rcases List.mem_cons.mp ha with rfl | ha
      · exact le_of_not_lt hge
      · exact le_trans (hz a ha) (le_of_not_lt hge)

theorem pairwise_sort_desc (l : List SelectorStrategy) :
    (sort_desc l).Pairwise (fun a b => b.confidence ≤ a.confidence) := by
  induction l with
  | nil => simp [sort_desc]
  | cons x xs ih => exact pairwise_insert_desc ih

theorem sort_desc_cons_of_lt {x : SelectorStrategy} {l : List SelectorStrategy}
    (h : ∀ y ∈ l, y.confidence < x.confidence) :
    sort_desc (x :: l) = x :: sort_desc l := by
  show insert_desc x (sort_desc l) = x :: sort_desc l
  cases hs : sort_desc l with
  | nil => simp [insert_desc]
  | cons z zs =>
    have hz : z ∈ sort_desc l := by rw [hs]; exact List.mem_cons_self z zs
    have : ¬ x.confidence < z.confidence :=
      not_lt_of_gt (h z (mem_sort_desc.mp hz))
    simp [insert_desc, this]

theorem filter_insert_desc (x : SelectorStrategy) (l : List SelectorStrategy)
    (conf : ℚ) :
    (insert_desc x l).filter (fun s => decide (s.confidence = conf)) =
      if x.confidence = conf then
        x :: l.filter (fun s => decide (s.confidence = conf))
      else l.filter (fun s => decide (s.confidence = conf)) := by
  induction l with
  | nil =>
    simp only [insert_desc, List.filter]
    split <;> simp_all
  | cons z zs ih =>
    simp only [insert_desc]
    split
    · rename_i hlt
      by_cases hx : x.confidence = conf
      · have hz : ¬ z.confidence = conf := by
          intro hzc
          exact absurd hlt (by rw [hzc, hx]; exact lt_irrefl conf)
        simp [List.filter_cons, hx, hz, ih]
      · simp only [List.filter_cons, ih, if_neg hx]
    · simp only [List.filter_cons]
      split
      · rename_i hx
        simp_all
      · rename_i hx
        simp_all

theorem filter_sort_desc (l : List SelectorStrategy) (conf : ℚ) :
    (sort_desc l).filter (fun s => decide (s.confidence = conf)) =
      l.filter (fun s => decide (s.confidence = conf)) := by
  induction l with
  | nil => rfl
  | cons x xs ih =>
    show (insert_desc x (sort_desc xs)).filter _ = _
    rw [filter_insert_desc, ih, List.filter_cons]
    split <;> simp_all

/-! ### Lemmas about the generated candidates -/

theorem conf_le_of_mem_components {c : ParsedComponents} {s : SelectorStrategy}
    (hs : s ∈ generate_selectors_from_components c) :
    s.confidence ≤ mkRat 95 100 := by
  unfold generate_selectors_from_components at hs
  split at hs
  · simp at hs
  · simp only [List.mem_append, List.mem_flatMap, List.mem_map] at hs
    rcases hs with ((((h | h) | h) | h) | h) | h
    · obtain ⟨ctx, _, el, _, rfl⟩ := h
      exact le_refl _
    · obtain ⟨el, _, rfl⟩ := h
      show (mkRat 85 100 : ℚ) ≤ mkRat 95 100
      decide
    · obtain ⟨ctx, _, rfl⟩ := h
      show (mkRat 75 100 : ℚ) ≤ mkRat 95 100
      decide
    · obtain ⟨alt, _, el, _, rfl⟩ := h
      show (mkRat 70 100 : ℚ) ≤ mkRat 95 100
      decide
    · split at h
      · obtain ⟨el, _, rfl⟩ := List.mem_map.mp h
        show (mkRat 65 100 : ℚ) ≤ mkRat 95 100
        decide
      · simp at h
    · split at h
      · rcases List.mem_singleton.mp h with rfl
        show (mkRat 70 100 : ℚ) ≤ mkRat 95 100
        decide
      · simp at h

theorem conf_le_of_mem_fallback {d : String} {s : SelectorStrategy}
    (hs : s ∈ generate_fallback_selectors d) :
    s.confidence ≤ mkRat 60 100 := by
  unfold generate_fallback_selectors at hs
  simp only [List.mem_append] at hs
  rcases hs with ((h | h) | h) | h
  · split at h
    · obtain ⟨t, _, rfl⟩ := List.mem_map.mp h
      exact le_refl _
    · simp at h
  · split at h
    · obtain ⟨t, _, rfl⟩ := List.mem_map.mp h
      exact le_refl _
    · simp at h
  · split at h
    · obtain ⟨t, _, rfl⟩ := List.mem_map.mp h
      exact le_refl _
    · simp at h
  · obtain ⟨t, _, rfl⟩ := List.mem_map.mp h
    show (mkRat 40 100 : ℚ) ≤ mkRat 60 100
    decide

theorem conf_lt_one_of_mem_nonexplicit {d : String}
    {c? : Option ParsedComponents} {s : SelectorStrategy}
    (hs : s ∈ (match c? with
      | some c => generate_selectors_from_components c
      | none => ([] : List SelectorStrategy)) ++ generate_fallback_selectors d) :
    s.confidence < 1 := by
  rcases List.mem_append.mp hs with h | h
  · match c? with
    | some c =>
      have := conf_le_of_mem_components h
      calc s.confidence ≤ mkRat 95 100 := this
        _ < 1 := by decide
    | none => simp at h
  · have := conf_le_of_mem_fallback h
    calc s.confidence ≤ mkRat 60 100 := this
      _ < 1 := by decide

/-- With an explicit selector parameter, the generated list is the explicit
candidate followed by candidates of strictly lower confidence. -/
theorem generate_semantic_selectors_explicit (d : String)
    (c? : Option ParsedComponents) {p : ActionParams} {sel : String}
    (h : p.selector? = some sel) :
    ∃ rest, generate_semantic_selectors d p c? = explicit_strategy sel :: rest ∧
      ∀ s ∈ rest, s.confidence < 1 := by
  unfold generate_semantic_selectors
  rw [h]
  refine ⟨(match c? with
    | some c => generate_selectors_from_components c
    | none => ([] : List SelectorStrategy)) ++ generate_fallback_selectors d,
    ?_, ?_⟩
  · rw [List.append_assoc]
    rfl
  · intro s hs
    exact conf_lt_one_of_mem_nonexplicit hs

/-! ### Lemmas about the click and type attempt loops -/

theorem click_attempt_loop_attempted_take
    (oracle : ℕ → ClickAttemptOutcome) (w : ℤ) (l : List SelectorStrategy)
    (i : ℕ) :
    ∃ k, (click_attempt_loop oracle w l i).2.1 = l.take k := by
  induction l generalizing i with
  | nil => exact ⟨0, rfl⟩
  | cons s rest ih =>
    simp only [click_attempt_loop]
    cases oracle i with
    | timeoutErr =>
      obtain ⟨k, hk⟩ := ih (i + 1)
      exact ⟨k + 1, by simp [hk]⟩
    | nullElement =>
      obtain ⟨k, hk⟩ := ih (i + 1)
      exact ⟨k + 1, by simp [hk]⟩
    | element vis en clickFails =>
      by_cases hv : vis && en
      · by_cases hc : clickFails
        · obtain ⟨k, hk⟩ := ih (i + 1)
          refine ⟨k + 1, ?_⟩
          simp [hv, hc, hk]
        · refine ⟨1, ?_⟩
          simp [hv, hc]
      · obtain ⟨k, hk⟩ := ih (i + 1)
        refine ⟨k + 1, ?_⟩
        simp [hv, hk]

theorem type_attempt_loop_attempted_take
    (oracle : ℕ → TypeAttemptOutcome) (text : String) (p : ActionParams)
    (l : List SelectorStrategy) (i : ℕ) :
    ∃ k, (type_attempt_loop oracle text p l i).2.1 = l.take k := by
  induction l generalizing i with
  | nil => exact ⟨0, rfl⟩
  | cons s rest ih =>
    simp only [type_attempt_loop]
    cases oracle i with
    | errStep =>
      obtain ⟨k, hk⟩ := ih (i + 1)
      exact ⟨k + 1, by simp [hk]⟩
    | nullElement =>
      obtain ⟨k, hk⟩ := ih (i + 1)
      exact ⟨k + 1, by simp [hk]⟩
    | ok => exact ⟨1, rfl⟩

theorem range_map_shift (f : ℕ → ℤ) (i n : ℕ) :
    (List.range (n + 1)).map (fun k => f (i + k)) =
      f i :: (List.range n).map (fun k => f (i + 1 + k)) := by
  rw [List.range_succ_eq_map, List.map_cons, List.map_map]
  refine congrArg₂ _ (by simp) ?_
  apply List.map_congr_left
  intro k _
  show f (i + (k + 1)) = f (i + 1 + k)
  exact congrArg f (by omega)

theorem click_attempt_loop_wait_timeouts
    (oracle : ℕ → ClickAttemptOutcome) (w : ℤ) (l : List SelectorStrategy)
    (i : ℕ) :
    wait_timeouts (click_attempt_loop oracle w l i).2.2 =
      (List.range (click_attempt_loop oracle w l i).2.1.length).map
        (fun k => clickTimeout (i + k)) := by
  induction l generalizing i with
  | nil => rfl
  | cons s rest ih =>
    simp only [click_attempt_loop]
    cases oracle i with
    | timeoutErr =>
      simp only [List.length_cons, range_map_shift]
      rw [← ih (i + 1)]
      simp [wait_timeouts, List.filterMap_cons]
    | nullElement =>
      simp only [List.length_cons, range_map_shift]
      rw [← ih (i + 1)]
      simp [wait_timeouts, List.filterMap_cons]
    | element vis en clickFails =>
      by_cases hv : vis && en
      · by_cases hc : clickFails
        · simp only [hv, hc, if_true, List.length_cons, range_map_shift]
          rw [← ih (i + 1)]
          simp [wait_timeouts, List.filterMap_cons, List.filterMap_append]
        · simp only [hv, if_true, hc, Bool.not_eq_true]
          simp [wait_timeouts, List.filterMap_cons, List.filterMap_append,
            List.range_succ]
      · simp only [hv, Bool.false_eq_true, if_false, List.length_cons,
          range_map_shift]
        rw [← ih (i + 1)]
        simp [wait_timeouts, List.filterMap_cons, List.filterMap_append]

/-! ### Lemmas about the orchestration loop -/

/-- The counter returned by the loop, on either exit. -/
def loop_counter : (ℕ × SessionResults) ⊕ (String × ℕ × SessionResults) → ℕ
  | Sum.inl (cur, _) => cur
  | Sum.inr (_, cur, _) => cur

/-- The results returned by the loop, on either exit. -/
def loop_results :
    (ℕ × SessionResults) ⊕ (String × ℕ × SessionResults) → SessionResults
  | Sum.inl (_, r) => r
  | Sum.inr (_, _, r) => r

theorem loop_turns_counter_le (o : SessionOracle) (max_actions : ℕ) :
    ∀ (fuel current : ℕ) (r : SessionResults), current ≤ max_actions →
      loop_counter (loop_turns o max_actions fuel current r) ≤ max_actions := by
  intro fuel
  induction fuel with
  | zero => intro current r h; exact h
  | succ fuel ih =>
    intro current r h
    simp only [loop_turns]
    split
    · rename_i hlt
      cases ht : o.turns (current + 1) with
      | raises msg => exact hlt
      | runs d =>
        simp only
        split
        · exact hlt
        · split
          · exact hlt
          · exact ih (current + 1) _ hlt
    · exact h

theorem turn_update_total_actions (r : SessionResults) (d : TurnData) :
    (turn_update r d).total_actions? = r.total_actions? := by
  unfold turn_update
  (repeat' split) <;> rfl

theorem turn_update_nav_path (r : SessionResults) (d : TurnData) :
    (turn_update r d).navigation_path =
      r.navigation_path ++
        (if d.execResult.success = true ∧ d.urlAfter ≠ d.url then [d.urlAfter]
         else []) := by
  unfold turn_update
  (repeat' split) <;> simp_all

theorem loop_turns_total_actions (o : SessionOracle) (max_actions : ℕ) :
    ∀ (fuel current : ℕ) (r : SessionResults),
      (loop_results (loop_turns o max_actions fuel current r)).total_actions? =
        r.total_actions? := by
  intro fuel
  induction fuel with
  | zero => intro current r; rfl
  | succ fuel ih =>
    intro current r
    simp only [loop_turns]
    split
    · cases ht : o.turns (current + 1) with
      | raises msg => rfl
      | runs d =>
        simp only
        split
        · rfl
        · split
          · rfl
          · rw [ih, turn_update_total_actions]
    · rfl

theorem turn_update_successful_navigation (r : SessionResults) (d : TurnData) :
    (turn_update r d).successful_navigation? = r.successful_navigation? := by
  unfold turn_update
  (repeat' split) <;> rfl

theorem loop_turns_successful_navigation (o : SessionOracle)
    (max_actions : ℕ) :
    ∀ (fuel current : ℕ) (r : SessionResults),
      (loop_results
          (loop_turns o max_actions fuel current r)).successful_navigation? =
        r.successful_navigation? := by
  intro fuel
  induction fuel with
  | zero => intro current r; rfl
  | succ fuel ih =>
    intro current r
    simp only [loop_turns]
    split
    · cases ht : o.turns (current + 1) with
      | raises msg => rfl
      | runs d =>
        simp only
        split
        · rfl
        · split
          · rfl
          · rw [ih, turn_update_successful_navigation]
    · rfl

theorem finalize_navigation_path (o : SessionOracle) (cur : ℕ)
    (r : SessionResults) :
    (finalize o cur r).navigation_path = r.navigation_path := by
  unfold finalize
  split <;> rfl

theorem finalize_total_actions (o : SessionOracle) (cur : ℕ)
    (r : SessionResults) :
    (finalize o cur r).total_actions? = some cur := by
  unfold finalize
  split <;> rfl

theorem finalize_successful_navigation (o : SessionOracle) (cur : ℕ)
    (r : SessionResults) :
    (finalize o cur r).successful_navigation? =
      some (decide (r.navigation_path.length > 1)) := by
  unfold finalize
  split <;> rfl

theorem loop_turns_nav_path (o : SessionOracle) (max_actions : ℕ) :
    ∀ (fuel current : ℕ) (r : SessionResults),
      ∃ ext,
        (loop_results (loop_turns o max_actions fuel current r)).navigation_path =
          r.navigation_path ++ ext ∧
        ∀ u ∈ ext, ∃ n d, o.turns n = TurnOutcome.runs d ∧
          d.execResult.success = true ∧ d.urlAfter ≠ d.url ∧ u = d.urlAfter := by
  intro fuel
  induction fuel with
  | zero => intro current r; exact ⟨[], by simp [loop_turns, loop_results], by simp⟩
  | succ fuel ih =>
    intro current r
    simp only [loop_turns]
    split
    · cases ht : o.turns (current + 1) with
      | raises msg => exact ⟨[], by simp [loop_results], by simp⟩
      | runs d =>
        simp only
        split
        · exact ⟨[], by simp [loop_results], by simp⟩
        · split
          · exact ⟨[], by simp [loop_results], by simp⟩
          · obtain ⟨ext, hext, hprov⟩ := ih (current + 1) (turn_update
              { r with actions_taken := r.actions_taken ++
                [{ action_type := d.action.action_type.value
                   target_description := d.action.target_description
                   parameters := d.action.parameters
                   confidence := d.action.confidence
                   reasoning := d.action.reasoning
                   page_title := d.title
                   page_url := d.url }] } d)
            refine ⟨(if d.execResult.success = true ∧ d.urlAfter ≠ d.url then
              [d.urlAfter] else []) ++ ext, ?_, ?_⟩
            · rw [hext, turn_update_nav_path]
              simp [List.append_assoc]
            · intro u hu
              rcases List.mem_append.mp hu with hu | hu
              · by_cases hcond : d.execResult.success = true ∧ d.urlAfter ≠ d.url
                · rw [if_pos hcond] at hu
                  rcases List.mem_singleton.mp hu with rfl
                  exact ⟨current + 1, d, ht, hcond.1, hcond.2, rfl⟩
                · rw [if_neg hcond] at hu
                  simp at hu
              · exact hprov u hu
    · exact ⟨[], by simp [loop_results], by simp⟩

/-! ### Claim theorems -/

/-- C9: For every `ActionExecutionResult`, the boolean coercion defined by
`__bool__` equals the `success` field, so callers may test the result object
directly as a truth value. -/
theorem result_bool_coercion_eq_success (r : ActionExecutionResult) :
    r.toBool = r.success :=
  rfl

/-- C2: An action whose confidence is strictly below 0.30 is rejected by
`execute_action` with `success = false` and a message reporting the low
confidence, the browser-op trace is empty, and the outcome is independent of
the page environment (no selector generation or browser interaction can
influence it). -/
theorem low_confidence_rejected (o : ExecOracle) (a : NavigationAction)
    (h : a.confidence < mkRat 3 10) :
    (execute_action o a).1.success = false ∧
    (execute_action o a).1.message =
      "Action confidence too low: " ++ rat_repr a.confidence ∧
    (execute_action o a).2 = [] ∧
    ∀ o2 : ExecOracle, execute_action o2 a = execute_action o a := by
  unfold execute_action
  rw [if_pos h]
  refine ⟨rfl, rfl, rfl, ?_⟩
  intro o2
  rw [if_pos h]

/-- A concrete low-confidence action for the C2 witness. -/
def low_conf_action : NavigationAction :=
  { action_type := ActionType.click
    target_description := "Discussion tab"
    parameters := {}
    confidence := mkRat 1 10
    reasoning := "unsure" }

/-- A benign executor environment with all defaults. -/
def default_oracle : ExecOracle := {}

theorem low_confidence_rejected_witness :
    low_conf_action.confidence < mkRat 3 10 ∧
    ((execute_action default_oracle low_conf_action).1.success = false ∧
     (execute_action default_oracle low_conf_action).1.message =
       "Action confidence too low: " ++ rat_repr low_conf_action.confidence ∧
     (execute_action default_oracle low_conf_action).2 = [] ∧
     ∀ o2 : ExecOracle, execute_action o2 low_conf_action =
       execute_action default_oracle low_conf_action) :=
  ⟨by decide, low_confidence_rejected default_oracle low_conf_action (by decide)⟩

/-- C5: The Locator Strategy Generator is deterministic and idempotent — two
calls with identical target description, parameters and structural
decomposition produce identical candidate lists (it is a pure function of
exactly these three inputs; no executor state is read). -/
theorem generator_deterministic (d1 d2 : String) (p1 p2 : ActionParams)
    (c1 c2 : Option ParsedComponents)
    (hd : d1 = d2) (hp : p1 = p2) (hc : c1 = c2) :
    generate_semantic_selectors d1 p1 c1 =
      generate_semantic_selectors d2 p2 c2 := by
  subst hd
  subst hp
  subst hc
  rfl

theorem generator_deterministic_witness :
    ("Discussion tab in main navigation" = "Discussion tab in main navigation" ∧
     (({} : ActionParams) = {}) ∧
     (none : Option ParsedComponents) = none) ∧
    generate_semantic_selectors "Discussion tab in main navigation" {} none =
      generate_semantic_selectors "Discussion tab in main navigation" {} none :=
  ⟨⟨rfl, rfl, rfl⟩,
   generator_deterministic _ _ _ _ _ _ rfl rfl rfl⟩

/-- C8: For the description "Submit form button" with no structural
decomposition, the fallback path produces the candidate
`button:has-text('Submit')` at confidence 0.60, category `fallback_button`,
derived from the capitalized token "Submit". -/
theorem fallback_submit_button :
    ({ selector := "button:has-text(\x27Submit\x27)"
       confidence := mkRat 60 100
       reasoning := "Button with text: Submit"
       category := "fallback_button" } : SelectorStrategy) ∈
      generate_semantic_selectors "Submit form button" {} none := by
  decide

/-- The decomposition used to refute C4: the LLM reports an alternative text
equal to the target text, so strategy 2 and strategy 4 emit the same
expression (the fallback path repeats it a third time). -/
def dup_components : ParsedComponents :=
  { target_text := "Tab"
    element_type := "tab"
    context_area := "page"
    modifiers := []
    alternative_text := ["Tab"] }

/-- C4 counterexample: the generator performs no de-duplication — on this
concrete input the produced candidate list contains two candidates with the
same locator expression. -/
theorem candidate_expressions_can_repeat :
    ¬ ((generate_semantic_selectors "Tab" {} (some dup_components)).map
        (fun s => s.selector)).Nodup := by
  decide

/-- C4 amended: the candidate list is not de-duplicated (see the
counterexample), but ranking ties are indeed broken by generation order: the
stable descending sort keeps candidates of equal confidence in the order the
generator produced them. -/
theorem ranking_ties_keep_generation_order (d : String) (p : ActionParams)
    (c? : Option ParsedComponents) (conf : ℚ) :
    (sorted_strategies d p c?).filter (fun s => decide (s.confidence = conf)) =
      (generate_semantic_selectors d p c?).filter
        (fun s => decide (s.confidence = conf)) :=
  filter_sort_desc _ conf

/-- C7: the per-attempt click timeout at zero-based attempt index `i` is
`max 2000 (8000 - 1000 i)`: it starts at 8000, is non-increasing, never
drops below 2000, and the trace of the click handler records exactly these
timeouts for the attempted candidates, in order. -/
theorem click_timeout_schedule :
    clickTimeout 0 = 8000 ∧
    (∀ i : ℕ, clickTimeout (i + 1) ≤ clickTimeout i) ∧
    (∀ i : ℕ, 2000 ≤ clickTimeout i) ∧
    (∀ i : ℕ, clickTimeout i = max 2000 (8000 - 1000 * (i : ℤ))) ∧
    ∀ (o : ExecOracle) (a : NavigationAction),
      wait_timeouts (click_trace o a) =
        (List.range (click_attempted o a).length).map clickTimeout := by
  refine ⟨by decide, ?_, ?_, fun i => rfl, ?_⟩
  · intro i
    unfold clickTimeout
    push_cast
    omega
  · intro i
    exact le_max_left _ _
  · intro o a
    unfold click_trace click_attempted
    rw [click_attempt_loop_wait_timeouts]
    apply List.map_congr_left
    intro k _
    simp

/-- C3: for every target description and parameter map, the candidate lists
the click and type handlers actually attempt are prefixes of the stably
sorted candidate list, which is in non-increasing confidence order; and
whenever the parameters carry an explicit `selector` entry, the candidate
with that selector, confidence 1.0 and category `explicit` is ranked
strictly first (every other candidate has confidence below 1). -/
theorem candidates_sorted_and_explicit_first (o : ExecOracle)
    (a : NavigationAction) :
    (sorted_strategies a.target_description a.parameters o.parsed?).Pairwise
      (fun x y => y.confidence ≤ x.confidence) ∧
    (∃ k, click_attempted o a =
      (sorted_strategies a.target_description a.parameters o.parsed?).take k) ∧
    (∃ k, type_attempted o a =
      (sorted_strategies a.target_description a.parameters o.parsed?).take k) ∧
    ∀ sel, a.parameters.selector? = some sel →
      ∃ rest, sorted_strategies a.target_description a.parameters o.parsed? =
        explicit_strategy sel :: rest ∧ ∀ s ∈ rest, s.confidence < 1 := by
  refine ⟨pairwise_sort_desc _, ?_, ?_, ?_⟩
  · unfold click_attempted
    exact click_attempt_loop_attempted_take o.clickOutcome
      (a.parameters.wait_after?.getD 2000) _ 0
  · unfold type_attempted
    split
    · exact ⟨0, rfl⟩
    · exact type_attempt_loop_attempted_take o.typeOutcome _ a.parameters _ 0
  · intro sel h
    obtain ⟨rest, hrest, hlt⟩ :=
      generate_semantic_selectors_explicit a.target_description o.parsed? h
    have hall : ∀ y ∈ rest, y.confidence < (explicit_strategy sel).confidence := by
      intro y hy
      have h1 : (explicit_strategy sel).confidence = 1 := rfl
      rw [h1]
      exact hlt y hy
    refine ⟨sort_desc rest, ?_, ?_⟩
    · unfold sorted_strategies
      rw [hrest]
      exact sort_desc_cons_of_lt hall
    · intro s hs
      exact hlt s (mem_sort_desc.mp hs)

/-- A concrete action with an explicit selector parameter, for the C3
witness. -/
def explicit_param_action : NavigationAction :=
  { action_type := ActionType.click
    target_description := "Discussion tab in main navigation"
    parameters := { selector? := some "[role=\x27tab\x27]" }
    confidence := mkRat 9 10
    reasoning := "tab is visible" }

theorem candidates_sorted_and_explicit_first_witness :
    explicit_param_action.parameters.selector? = some "[role=\x27tab\x27]" ∧
    ((sorted_strategies explicit_param_action.target_description
        explicit_param_action.parameters default_oracle.parsed?).Pairwise
      (fun x y => y.confidence ≤ x.confidence) ∧
    (∃ k, click_attempted default_oracle explicit_param_action =
      (sorted_strategies explicit_param_action.target_description
        explicit_param_action.parameters default_oracle.parsed?).take k) ∧
    (∃ k, type_attempted default_oracle explicit_param_action =
      (sorted_strategies explicit_param_action.target_description
        explicit_param_action.parameters default_oracle.parsed?).take k) ∧
    ∃ rest, sorted_strategies explicit_param_action.target_description
        explicit_param_action.parameters default_oracle.parsed? =
      explicit_strategy "[role=\x27tab\x27]" :: rest ∧
        ∀ s ∈ rest, s.confidence < 1) :=
  ⟨rfl, by
    obtain ⟨h1, h2, h3, h4⟩ :=
      candidates_sorted_and_explicit_first default_oracle explicit_param_action
    exact ⟨h1, h2, h3, h4 "[role=\x27tab\x27]" rfl⟩⟩

/-- C1: for a fresh session (counter 0, fresh results dict, as built by
`__post_init__`), the `total_actions` reported by a completed run never
exceeds `max_actions` — the loop increments the counter only while
`current_action < max_actions`, including the `max_actions = 0` case. -/
theorem session_turn_bound (o : SessionOracle) (s : ScrapingSession)
    (h0 : s.current_action = 0) (hr : s.results = emptyResults)
    (r : SessionResults) (t : ℕ)
    (hok : scrape_page o s = Except.ok r)
    (ht : r.total_actions? = some t) :
    t ≤ s.max_actions := by
  unfold scrape_page at hok
  cases hacq : o.acquireFails? with
  | some msg => rw [hacq] at hok; simp at hok
  | none =>
    rw [hacq] at hok
    cases hrel : o.releaseFails? with
    | some msg => rw [hrel] at hok; simp at hok
    | none =>
      rw [hrel] at hok
      simp only [Except.ok.injEq] at hok
      cases hgoto : o.gotoFails? with
      | some msg =>
        rw [hgoto] at hok
        rw [← hok, hr] at ht
        simp [emptyResults] at ht
      | none =>
        rw [hgoto] at hok
        cases hloop : loop_turns o s.max_actions
            (s.max_actions - s.current_action) s.current_action
            (start_results s) with
        | inr p =>
          obtain ⟨msg, cur, rl⟩ := p
          rw [hloop] at hok
          have hpres := loop_turns_total_actions o s.max_actions
            (s.max_actions - s.current_action) s.current_action
            (start_results s)
          rw [hloop] at hpres
          rw [← hok] at ht
          simp only [loop_results] at hpres
          have : rl.total_actions? = some t := ht
          rw [hpres] at this
          simp [start_results, hr, emptyResults] at this
        | inl p =>
          obtain ⟨cur, rl⟩ := p
          rw [hloop] at hok
          rw [← hok, finalize_total_actions] at ht
          have hle := loop_turns_counter_le o s.max_actions
            (s.max_actions - s.current_action) s.current_action
            (start_results s) (by omega)
          rw [hloop] at hle
          simp only [loop_counter] at hle
          simp only [Option.some.injEq] at ht
          omega

/-- A benign session environment with all defaults. -/
def benign_oracle : SessionOracle := {}

/-- A fresh session as built by the dataclass with `max_actions := 0`. -/
def fresh_session : ScrapingSession :=
  { url := "https://example.org", goal := "find the discussion section",
    max_actions := 0 }

/-- The results a benign zero-turn run computes. -/
def zero_turn_result : SessionResults :=
  { navigation_path := ["https://example.org"]
    final_url? := some ""
    total_actions? := some 0
    successful_navigation? := some false
    strategies_learned? := some 0 }

theorem session_turn_bound_witness :
    (fresh_session.current_action = 0 ∧ fresh_session.results = emptyResults ∧
     scrape_page benign_oracle fresh_session = Except.ok zero_turn_result ∧
     zero_turn_result.total_actions? = some 0) ∧
    0 ≤ fresh_session.max_actions :=
  ⟨⟨rfl, rfl, rfl, rfl⟩,
   session_turn_bound benign_oracle fresh_session rfl rfl
     zero_turn_result 0 rfl rfl⟩

/-- The fault the `try` body of `scrape_page` runs into, if any: a `goto`
exception, or an exception inside some loop iteration. -/
def body_fault (o : SessionOracle) (s : ScrapingSession) :
    Option (String × ℕ) :=
  match o.gotoFails? with
  | some msg => some (msg, s.current_action)
  | none =>
    match loop_turns o s.max_actions (s.max_actions - s.current_action)
        s.current_action (start_results s) with
    | Sum.inr (msg, cur, _) => some (msg, cur)
    | Sum.inl _ => none

/-- C6 counterexample: a fault while acquiring the page handle propagates
out of `scrape_page` — the `try/except` sits inside the
`async with get_page()` scope, so the claim's "including faults raised
while acquiring or releasing the page handle" fails. -/
def acquire_fail_oracle : SessionOracle :=
  { acquireFails? := some "browser context unavailable" }

theorem scrape_page_propagates_acquire_fault :
    scrape_page acquire_fail_oracle fresh_session =
      Except.error "browser context unavailable" :=
  rfl

/-- C6 amended: once the page handle is acquired and its release succeeds,
`scrape_page` always returns the results dictionary (never an exception),
and any fault raised inside the session body is recorded in `errors` as a
session-failure record with the action number at the time of the fault. -/
theorem session_body_faults_contained (o : SessionOracle)
    (s : ScrapingSession)
    (h1 : o.acquireFails? = none) (h2 : o.releaseFails? = none) :
    (∃ r, scrape_page o s = Except.ok r) ∧
    ∀ msg n, body_fault o s = some (msg, n) →
      ∀ r, scrape_page o s = Except.ok r →
        ErrorRecord.sessionFailure msg n ∈ r.errors := by
  unfold scrape_page body_fault
  rw [h1, h2]
  cases hgoto : o.gotoFails? with
  | some msg =>
    refine ⟨⟨_, rfl⟩, ?_⟩
    intro msg2 n hmn r hok
    simp only [Option.some.injEq, Prod.mk.injEq] at hmn
    simp only [Except.ok.injEq] at hok
    rw [← hok, ← hmn.1, ← hmn.2]
    simp
  | none =>
    cases hloop : loop_turns o s.max_actions
        (s.max_actions - s.current_action) s.current_action
        (start_results s) with
    | inr p =>
      obtain ⟨msg, cur, rl⟩ := p
      refine ⟨⟨_, rfl⟩, ?_⟩
      intro msg2 n hmn r hok
      simp only [Option.some.injEq, Prod.mk.injEq] at hmn
      simp only [Except.ok.injEq] at hok
      rw [← hok, ← hmn.1, ← hmn.2]
      exact List.mem_append_right _ (List.mem_singleton_self _)
    | inl p =>
      refine ⟨⟨_, rfl⟩, ?_⟩
      intro msg2 n hmn
      simp at hmn

theorem session_body_faults_contained_witness :
    (benign_oracle.acquireFails? = none ∧
     benign_oracle.releaseFails? = none) ∧
    ((∃ r, scrape_page benign_oracle fresh_session = Except.ok r) ∧
     ∀ msg n, body_fault benign_oracle fresh_session = some (msg, n) →
       ∀ r, scrape_page benign_oracle fresh_session = Except.ok r →
         ErrorRecord.sessionFailure msg n ∈ r.errors) :=
  ⟨⟨rfl, rfl⟩,
   session_body_faults_contained benign_oracle fresh_session rfl rfl⟩

/-- C10: on a run that completes without a session-level exception (the
summary key is present), `successful_navigation` is true iff
`navigation_path` holds more than one URL; the start URL is the first entry,
and the flag is true exactly when some successful action changed the
observed URL relative to its pre-action snapshot (every later entry is such
a post-action URL). -/
theorem successful_navigation_iff (o : SessionOracle) (s : ScrapingSession)
    (hr : s.results = emptyResults) (r : SessionResults) (b : Bool)
    (hok : scrape_page o s = Except.ok r)
    (hb : r.successful_navigation? = some b) :
    b = decide (r.navigation_path.length > 1) ∧
    r.navigation_path.head? = some s.url ∧
    (b = true ↔ ∃ n d, o.turns n = TurnOutcome.runs d ∧
      d.execResult.success = true ∧ d.urlAfter ≠ d.url ∧
      d.urlAfter ∈ r.navigation_path.tail) := by
  unfold scrape_page at hok
  cases hacq : o.acquireFails? with
  | some msg => rw [hacq] at hok; simp at hok
  | none =>
    rw [hacq] at hok
    cases hrel : o.releaseFails? with
    | some msg => rw [hrel] at hok; simp at hok
    | none =>
      rw [hrel] at hok
      simp only [Except.ok.injEq] at hok
      cases hgoto : o.gotoFails? with
      | some msg =>
        rw [hgoto] at hok
        rw [← hok, hr] at hb
        simp [emptyResults] at hb
      | none =>
        rw [hgoto] at hok
        cases hloop : loop_turns o s.max_actions
            (s.max_actions - s.current_action) s.current_action
            (start_results s) with
        | inr p =>
          obtain ⟨msg, cur, rl⟩ := p
          rw [hloop] at hok
          have hpres := loop_turns_successful_navigation o s.max_actions
            (s.max_actions - s.current_action) s.current_action
            (start_results s)
          rw [hloop] at hpres
          simp only [loop_results] at hpres
          rw [← hok] at hb
          have : rl.successful_navigation? = some b := hb
          rw [hpres] at this
          simp [start_results, hr, emptyResults] at this
        | inl p =>
          obtain ⟨cur, rl⟩ := p
          rw [hloop] at hok
          have hnav : r.navigation_path = rl.navigation_path := by
            rw [← hok, finalize_navigation_path]
          have hsn : r.successful_navigation? =
              some (decide (rl.navigation_path.length > 1)) := by
            rw [← hok, finalize_successful_navigation]
          rw [hsn] at hb
          simp only [Option.some.injEq] at hb
          obtain ⟨ext, hext, hprov⟩ := loop_turns_nav_path o s.max_actions
            (s.max_actions - s.current_action) s.current_action
            (start_results s)
          rw [hloop] at hext
          simp only [loop_results, start_results, hr, emptyResults] at hext
          have hrl : rl.navigation_path = s.url :: ext := by
            rw [hext]
            simp
          refine ⟨by rw [hnav, ← hb], ?_, ?_⟩
          · rw [hnav, hrl]
            rfl
          · have htail : r.navigation_path.tail = ext := by
              rw [hnav, hrl]
              rfl
            constructor
            · intro hbt
              rw [hbt] at hb
              have hlen : rl.navigation_path.length > 1 := by
                by_contra hc
                simp only [decide_eq_true_eq] at hb
                exact hc hb
              rw [hrl] at hlen
              simp only [List.length_cons] at hlen
              have hne : ext ≠ [] := by
                intro hE
                rw [hE] at hlen
                simp at hlen
              obtain ⟨u, hu⟩ := List.exists_mem_of_ne_nil ext hne
              obtain ⟨n, d, h1, h2, h3, h4⟩ := hprov u hu
              exact ⟨n, d, h1, h2, h3, by rw [htail, ← h4]; exact hu⟩
            · rintro ⟨n, d, _, _, _, hmem⟩
              rw [htail] at hmem
              have hne : ext ≠ [] := List.ne_nil_of_mem hmem
              have hlen : rl.navigation_path.length > 1 := by
                rw [hrl]
                simp only [List.length_cons]
                cases ext with
                | nil => exact absurd rfl hne
                | cons a l => simp
              rw [← hb]
              exact decide_eq_true hlen

theorem successful_navigation_iff_witness :
    (fresh_session.results = emptyResults ∧
     scrape_page benign_oracle fresh_session = Except.ok zero_turn_result ∧
     zero_turn_result.successful_navigation? = some false) ∧
    (false = decide (zero_turn_result.navigation_path.length > 1) ∧
     zero_turn_result.navigation_path.head? = some fresh_session.url ∧
     (false = true ↔ ∃ n d, benign_oracle.turns n = TurnOutcome.runs d ∧
       d.execResult.success = true ∧ d.urlAfter ≠ d.url ∧
       d.urlAfter ∈ zero_turn_result.navigation_path.tail)) :=
  ⟨⟨rfl, rfl, rfl⟩,
   successful_navigation_iff benign_oracle fresh_session rfl
     zero_turn_result false rfl rfl⟩

end Scraper
